import Mathlib

/-!
Shallow embedding of the Glendale-Fire-Risk core:
scripts/build_risk_model.py (risk classification engine) and
scripts/derive_terrain.py (terrain derivative engine).

Grids in the source are numpy arrays and every relevant operation is an
elementwise (per-cell) transform, so each numpy whole-array statement is
embedded as a per-cell function.  NoData (IEEE NaN) is embedded as the
value none of an Option type: every comparison against NaN is false in
IEEE arithmetic, which the embeddings reproduce branch by branch, and
NaN is absorbing for + and *, which the convolution embedding reproduces.
Float arithmetic of the risk engine is embedded over the rationals and
the transcendental terrain math over the reals.
-/

namespace GlendaleFire

/-! ## Risk classification engine: scripts/build_risk_model.py -/

/-- Embedding of reclassify_slope (build_risk_model.py lines 70-80) at one
cell.  The source initialises a zero array and applies five boolean-masked
overwrites in sequence, then forces NaN cells to 0; the let-chain mirrors
that sequence (a later overwrite wins), and the none branch mirrors both
the all-masks-false behaviour of NaN comparisons and the final isnan mask. -/
def reclassify_slope (slope : Option ℚ) : ℕ :=
  match slope with
  | none => 0
  | some s =>
    let r : ℕ := 0
    let r := if s < 5 then 1 else r
    let r := if 5 ≤ s ∧ s < 15 then 2 else r
    let r := if 15 ≤ s ∧ s < 25 then 3 else r
    let r := if 25 ≤ s ∧ s < 35 then 4 else r
    let r := if 35 ≤ s then 5 else r
    r

/-- Embedding of reclassify_aspect (build_risk_model.py lines 118-137) at one
cell, with the same sequential boolean-mask-overwrite structure as the
source: flat sentinel first, then north (guarded against the sentinel),
east, south, west, and NaN forced to 0 at the end. -/
def reclassify_aspect (aspect : Option ℚ) : ℕ :=
  match aspect with
  | none => 0
  | some a =>
    let r : ℕ := 0
    let r := if a = -1 then 2 else r
    let r := if (315 ≤ a ∨ a < 45) ∧ a ≠ -1 then 2 else r
    let r := if 45 ≤ a ∧ a < 135 then 3 else r
    let r := if 135 ≤ a ∧ a < 225 then 5 else r
    let r := if 225 ≤ a ∧ a < 315 then 4 else r
    r

/-- Embedding of numpy
rounding (np.round, used at build_risk_model.py line 211): round to the
nearest integer, ties to the even neighbour. -/
def np_round (q : ℚ) : ℤ :=
  let f := ⌊q⌋
  let r := q - f
  if r < 1 / 2 then f
  else if 1 / 2 < r then f + 1
  else if 2 ∣ f then f else f + 1

/-- Modelled from the spec: the round-half-away-from-zero rule named by the
spec for the overlay combinator, written here only to be compared against
the rounding the source actually performs. -/
def round_half_away_from_zero (q : ℚ) : ℤ :=
  if 0 ≤ q then ⌊q + 1 / 2⌋ else ⌈q - 1 / 2⌉

/-- Embedding of calculate_weighted_risk (build_risk_model.py lines 204-216)
at one cell: the weighted float sum, np.round followed by an astype to
uint8 (an exact nonnegative-integer cast reduced mod 256), np.clip to
[1,5], and finally the NoData mask forcing cells where any input is 0
back to 0. -/
def calculate_weighted_risk (ws wa wv : ℚ) (s a v : ℕ) : ℕ :=
  let weighted : ℚ := ws * s + wa * a + wv * v
  let rounded : ℕ := (np_round weighted).toNat % 256
  let final : ℕ := min 5 (max 1 rounded)
  if s = 0 ∨ a = 0 ∨ v = 0 then 0 else final

/-! ### Characterisation lemmas for the mask ladders -/

lemma reclassify_slope_some (s : ℚ) :
    reclassify_slope (some s) =
      if s < 5 then 1 else if s < 15 then 2 else if s < 25 then 3 else
      if s < 35 then 4 else 5 := by
  show (if 35 ≤ s then 5 else if 25 ≤ s ∧ s < 35 then 4 else
        if 15 ≤ s ∧ s < 25 then 3 else if 5 ≤ s ∧ s < 15 then 2 else
        if s < 5 then 1 else 0) = _
  rcases lt_or_le s 5 with h | h5
  · simp [h, show ¬ (5 : ℚ) ≤ s by linarith, show ¬ (15 : ℚ) ≤ s by linarith,
      show ¬ (25 : ℚ) ≤ s by linarith, show ¬ (35 : ℚ) ≤ s by linarith]
  rcases lt_or_le s 15 with h | h15
  · simp [h, h5, not_lt.mpr h5, show ¬ (15 : ℚ) ≤ s by linarith,
      show ¬ (25 : ℚ) ≤ s by linarith, show ¬ (35 : ℚ) ≤ s by linarith]
  rcases lt_or_le s 25 with h | h25
  · simp [h, h15, not_lt.mpr h15, show ¬ s < 5 by linarith,
      show ¬ (25 : ℚ) ≤ s by linarith, show ¬ (35 : ℚ) ≤ s by linarith]
  rcases lt_or_le s 35 with h | h35
  · simp [h, h25, not_lt.mpr h25, show ¬ s < 5 by linarith,
      show ¬ s < 15 by linarith, show ¬ (35 : ℚ) ≤ s by linarith]
  · simp [h35, not_lt.mpr h35, show ¬ s < 5 by linarith,
      show ¬ s < 15 by linarith, show ¬ s < 25 by linarith]

lemma reclassify_aspect_some (a : ℚ) :
    reclassify_aspect (some a) =
      if 225 ≤ a ∧ a < 315 then 4 else
      if 135 ≤ a ∧ a < 225 then 5 else
      if 45 ≤ a ∧ a < 135 then 3 else
      if (315 ≤ a ∨ a < 45) ∧ a ≠ -1 then 2 else
      if a = -1 then 2 else 0 := rfl

lemma reclassify_slope_pos (s : ℚ) : 1 ≤ reclassify_slope (some s) := by
  rw [reclassify_slope_some]
  split_ifs <;> norm_num

lemma reclassify_slope_le (x : Option ℚ) : reclassify_slope x ≤ 5 := by
  cases x with
  | none => simp [reclassify_slope]
  | some s => rw [reclassify_slope_some]; split_ifs <;> norm_num

lemma reclassify_aspect_pos (a : ℚ) : 1 ≤ reclassify_aspect (some a) := by
  rw [reclassify_aspect_some]
  rcases eq_or_ne a (-1) with rfl | hne
  · norm_num
  rcases lt_or_le a 45 with h45 | h45
  · simp [show ¬ (225 : ℚ) ≤ a by linarith, show ¬ (135 : ℚ) ≤ a by linarith,
      show ¬ (45 : ℚ) ≤ a by linarith, h45, hne]
  rcases lt_or_le a 135 with h | h135
  · simp [show ¬ (225 : ℚ) ≤ a by linarith, show ¬ (135 : ℚ) ≤ a by linarith, h45, h]
  rcases lt_or_le a 225 with h | h225
  · simp [show ¬ (225 : ℚ) ≤ a by linarith, h135, h]
  rcases lt_or_le a 315 with h | h315
  · simp [h225, h]
  · simp [show ¬ a < 315 by linarith, show ¬ a < 225 by linarith,
      show ¬ a < 135 by linarith, h315, hne]

lemma reclassify_aspect_le (x : Option ℚ) : reclassify_aspect x ≤ 5 := by
  cases x with
  | none => simp [reclassify_aspect]
  | some a => rw [reclassify_aspect_some]; split_ifs <;> norm_num

/-- C3: the slope reclassifier is a pure function of one slope value with the
half-open ladder [0,5) to 1, [5,15) to 2, [15,25) to 3, [25,35) to 4,
35 and above to 5, NaN to 0; in particular 5.0 maps to 2 and 15.0 to 3. -/
theorem slope_reclassifier_ladder :
    (∀ s : ℚ, 0 ≤ s → s < 5 → reclassify_slope (some s) = 1) ∧
    (∀ s : ℚ, 5 ≤ s → s < 15 → reclassify_slope (some s) = 2) ∧
    (∀ s : ℚ, 15 ≤ s → s < 25 → reclassify_slope (some s) = 3) ∧
    (∀ s : ℚ, 25 ≤ s → s < 35 → reclassify_slope (some s) = 4) ∧
    (∀ s : ℚ, 35 ≤ s → reclassify_slope (some s) = 5) ∧
    reclassify_slope none = 0 ∧
    reclassify_slope (some 5) = 2 ∧
    reclassify_slope (some 15) = 3 := by
  refine ⟨?_, ?_, ?_, ?_, ?_, rfl, by norm_num [reclassify_slope_some],
    by norm_num [reclassify_slope_some]⟩
  · intro s _ h; rw [reclassify_slope_some]; simp [h]
  · intro s h5 h; rw [reclassify_slope_some]
    simp [show ¬ s < 5 by linarith, h]
  · intro s h15 h; rw [reclassify_slope_some]
    simp [show ¬ s < 5 by linarith, show ¬ s < 15 by linarith, h]
  · intro s h25 h; rw [reclassify_slope_some]
    simp [show ¬ s < 5 by linarith, show ¬ s < 15 by linarith,
      show ¬ s < 25 by linarith, h]
  · intro s h35; rw [reclassify_slope_some]
    simp [show ¬ s < 5 by linarith, show ¬ s < 15 by linarith,
      show ¬ s < 25 by linarith, show ¬ s < 35 by linarith]

theorem slope_reclassifier_ladder_witness :
    reclassify_slope (some 3) = 1 ∧ reclassify_slope (some 5) = 2 ∧
    reclassify_slope (some 20) = 3 ∧ reclassify_slope (some 30) = 4 ∧
    reclassify_slope (some 40) = 5 :=
  ⟨slope_reclassifier_ladder.1 3 (by norm_num) (by norm_num),
   slope_reclassifier_ladder.2.1 5 (by norm_num) (by norm_num),
   slope_reclassifier_ladder.2.2.1 20 (by norm_num) (by norm_num),
   slope_reclassifier_ladder.2.2.2.1 30 (by norm_num) (by norm_num),
   slope_reclassifier_ladder.2.2.2.2.1 40 (by norm_num)⟩

/-- C4: the aspect reclassifier maps the flat sentinel -1 to 2 (same level as
north), [315,360) and [0,45) to 2, [45,135) to 3, [135,225) to 5,
[225,315) to 4 and NaN to 0; in particular 135.0 maps to 5, 134.999 to 3
and 225.0 to 4. -/
theorem aspect_reclassifier_ladder :
    reclassify_aspect (some (-1)) = 2 ∧
    (∀ a : ℚ, 315 ≤ a → a < 360 → reclassify_aspect (some a) = 2) ∧
    (∀ a : ℚ, 0 ≤ a → a < 45 → reclassify_aspect (some a) = 2) ∧
    (∀ a : ℚ, 45 ≤ a → a < 135 → reclassify_aspect (some a) = 3) ∧
    (∀ a : ℚ, 135 ≤ a → a < 225 → reclassify_aspect (some a) = 5) ∧
    (∀ a : ℚ, 225 ≤ a → a < 315 → reclassify_aspect (some a) = 4) ∧
    reclassify_aspect none = 0 ∧
    reclassify_aspect (some 135) = 5 ∧
    reclassify_aspect (some (134999 / 1000)) = 3 ∧
    reclassify_aspect (some 225) = 4 := by
  refine ⟨by norm_num [reclassify_aspect_some], ?_, ?_, ?_, ?_, ?_, rfl,
    by norm_num [reclassify_aspect_some], by norm_num [reclassify_aspect_some],
    by norm_num [reclassify_aspect_some]⟩
  · intro a h1 h2; rw [reclassify_aspect_some]
    simp [show ¬ a < 315 by linarith, show ¬ a < 225 by linarith,
      show ¬ a < 135 by linarith, h1, show a ≠ -1 by intro h; linarith [h ▸ h1]]
  · intro a h1 h2; rw [reclassify_aspect_some]
    simp [show ¬ (225 : ℚ) ≤ a by linarith, show ¬ (135 : ℚ) ≤ a by linarith,
      show ¬ (45 : ℚ) ≤ a by linarith, h2,
      show a ≠ -1 by intro h; rw [h] at h1; linarith]
  · intro a h1 h2; rw [reclassify_aspect_some]
    simp [show ¬ (225 : ℚ) ≤ a by linarith, show ¬ (135 : ℚ) ≤ a by linarith, h1, h2]
  · intro a h1 h2; rw [reclassify_aspect_some]
    simp [show ¬ (225 : ℚ) ≤ a by linarith, h1, h2]
  · intro a h1 h2; rw [reclassify_aspect_some]
    simp [h1, h2]

theorem aspect_reclassifier_ladder_witness :
    reclassify_aspect (some 320) = 2 ∧ reclassify_aspect (some 10) = 2 ∧
    reclassify_aspect (some 90) = 3 ∧ reclassify_aspect (some 180) = 5 ∧
    reclassify_aspect (some 270) = 4 :=
  ⟨aspect_reclassifier_ladder.2.1 320 (by norm_num) (by norm_num),
   aspect_reclassifier_ladder.2.2.1 10 (by norm_num) (by norm_num),
   aspect_reclassifier_ladder.2.2.2.1 90 (by norm_num) (by norm_num),
   aspect_reclassifier_ladder.2.2.2.2.1 180 (by norm_num) (by norm_num),
   aspect_reclassifier_ladder.2.2.2.2.2.1 270 (by norm_num) (by norm_num)⟩

/-- C9: every operation of the risk classification engine produces values in
0..5 only, and 0 exactly on NoData: a reclassifier yields 0 precisely on a
NaN input, and the overlay yields 0 precisely when some input layer is 0. -/
theorem riskgrid_range_invariant :
    (∀ x : Option ℚ, reclassify_slope x ≤ 5 ∧ (reclassify_slope x = 0 ↔ x = none)) ∧
    (∀ x : Option ℚ, reclassify_aspect x ≤ 5 ∧ (reclassify_aspect x = 0 ↔ x = none)) ∧
    (∀ ws wa wv : ℚ, ∀ s a v : ℕ,
      calculate_weighted_risk ws wa wv s a v ≤ 5 ∧
      (calculate_weighted_risk ws wa wv s a v = 0 ↔ (s = 0 ∨ a = 0 ∨ v = 0))) := by
  refine ⟨?_, ?_, ?_⟩
  · intro x
    refine ⟨reclassify_slope_le x, ?_⟩
    cases x with
    | none => simp [reclassify_slope]
    | some s =>
      have h := reclassify_slope_pos s
      constructor
      · intro h0; omega
      · intro h0; exact absurd h0 (by simp)
  · intro x
    refine ⟨reclassify_aspect_le x, ?_⟩
    cases x with
    | none => simp [reclassify_aspect]
    | some a =>
      have h := reclassify_aspect_pos a
      constructor
      · intro h0; omega
      · intro h0; exact absurd h0 (by simp)
  · intro ws wa wv s a v
    unfold calculate_weighted_risk
    dsimp only
    split_ifs with h
    · simp [h]
    · have h1 : 1 ≤ min 5 (max 1 ((np_round (ws * s + wa * a + wv * v)).toNat % 256)) :=
        le_min (by norm_num) (le_max_left 1 _)
      refine ⟨min_le_left _ _, ?_⟩
      constructor
      · intro h0; exact absurd (h0 ▸ h1) (by norm_num)
      · intro h0; exact absurd h0 h

/-! ### Rounding and the overlay postcondition -/

lemma np_round_nonneg (q : ℚ) (h : 0 ≤ q) : 0 ≤ np_round q := by
  have hf : 0 ≤ ⌊q⌋ := Int.floor_nonneg.mpr h
  unfold np_round
  dsimp only
  split_ifs <;> omega

lemma np_round_le (q : ℚ) (n : ℤ) (h : q ≤ n) : np_round q ≤ n := by
  have hf : ⌊q⌋ ≤ n := by
    have := Int.floor_mono h
    rwa [Int.floor_intCast] at this
  have hfl : (⌊q⌋ : ℚ) ≤ q := Int.floor_le q
  unfold np_round
  dsimp only
  split_ifs with h1 h2 h3
  · exact hf
  · have hcast : (⌊q⌋ : ℚ) < (n : ℚ) := by linarith
    have : ⌊q⌋ < n := by exact_mod_cast hcast
    omega
  · exact hf
  · have heq : q - ⌊q⌋ = 1 / 2 := le_antisymm (not_lt.mp h2) (not_lt.mp h1)
    have hcast : (⌊q⌋ : ℚ) < (n : ℚ) := by linarith
    have : ⌊q⌋ < n := by exact_mod_cast hcast
    omega

lemma np_round_tie (q : ℚ) (h : q - ⌊q⌋ = 1 / 2) :
    2 ∣ np_round q ∧ |(np_round q : ℚ) - q| = 1 / 2 := by
  unfold np_round
  dsimp only
  rw [if_neg (by rw [h]; norm_num), if_neg (by rw [h]; norm_num)]
  split_ifs with hd
  · refine ⟨hd, ?_⟩
    rw [abs_eq (by norm_num)]
    right; linarith
  · refine ⟨by omega, ?_⟩
    rw [abs_eq (by norm_num)]
    left; push_cast; linarith

/-- Shared postcondition for the arithmetic branch of the overlay: when no
input layer is 0 and the weights are the nonnegative unit-sum weights of the
data model, the combinator output is the clamp to [1,5] of the numpy
rounding of the weighted sum (the uint8 cast loses nothing there). -/
lemma overlay_eq_clamp_round (ws wa wv : ℚ) (s a v : ℕ)
    (hws : 0 ≤ ws) (hwa : 0 ≤ wa) (hwv : 0 ≤ wv) (hsum : ws + wa + wv = 1)
    (hs : s ≤ 5) (ha : a ≤ 5) (hv : v ≤ 5)
    (hs0 : 0 < s) (ha0 : 0 < a) (hv0 : 0 < v) :
    calculate_weighted_risk ws wa wv s a v =
      (max 1 (min 5 (np_round (ws * s + wa * a + wv * v)))).toNat := by
  unfold calculate_weighted_risk
  dsimp only
  rw [if_neg (by rintro (h | h | h) <;> omega)]
  have hq0 : 0 ≤ ws * s + wa * a + wv * v := by positivity
  have hq5 : ws * s + wa * a + wv * v ≤ 5 := by
    have h1 : ws * s ≤ ws * 5 := by
      have : (s : ℚ) ≤ 5 := by exact_mod_cast hs
      nlinarith
    have h2 : wa * a ≤ wa * 5 := by
      have : (a : ℚ) ≤ 5 := by exact_mod_cast ha
      nlinarith
    have h3 : wv * v ≤ wv * 5 := by
      have : (v : ℚ) ≤ 5 := by exact_mod_cast hv
      nlinarith
    nlinarith
  have hr0 : 0 ≤ np_round (ws * s + wa * a + wv * v) := np_round_nonneg _ hq0
  have hr5 : np_round (ws * s + wa * a + wv * v) ≤ 5 :=
    np_round_le _ 5 (by exact_mod_cast hq5)
  set k := np_round (ws * s + wa * a + wv * v) with hk
  interval_cases k <;> decide

/-- C1: overlay postcondition: with nonnegative unit-sum weights and inputs
on the 0..5 scale, every cell with all three layers positive yields the
clamp to [1,5] of the rounded weighted sum, and every cell with some layer
equal to 0 yields 0 regardless of the arithmetic. -/
theorem weighted_overlay_postcondition (ws wa wv : ℚ) (s a v : ℕ)
    (hws : 0 ≤ ws) (hwa : 0 ≤ wa) (hwv : 0 ≤ wv) (hsum : ws + wa + wv = 1)
    (hs : s ≤ 5) (ha : a ≤ 5) (hv : v ≤ 5) :
    (0 < s → 0 < a → 0 < v →
      calculate_weighted_risk ws wa wv s a v =
        (max 1 (min 5 (np_round (ws * s + wa * a + wv * v)))).toNat) ∧
    (s = 0 ∨ a = 0 ∨ v = 0 → calculate_weighted_risk ws wa wv s a v = 0) := by
  constructor
  · intro hs0 ha0 hv0
    exact overlay_eq_clamp_round ws wa wv s a v hws hwa hwv hsum hs ha hv hs0 ha0 hv0
  · intro h0
    unfold calculate_weighted_risk
    dsimp only
    rw [if_pos h0]

lemma floor_nineteen_fifths : ⌊(19 : ℚ) / 5⌋ = 3 := by
  rw [Int.floor_eq_iff]
  norm_num

lemma np_round_nineteen_fifths : np_round ((19 : ℚ) / 5) = 4 := by
  unfold np_round
  dsimp only
  rw [floor_nineteen_fifths, if_neg (by norm_num), if_pos (by norm_num)]
  norm_num

lemma floor_five_halves : ⌊(5 : ℚ) / 2⌋ = 2 := by
  rw [Int.floor_eq_iff]
  norm_num

lemma np_round_five_halves : np_round ((5 : ℚ) / 2) = 2 := by
  unfold np_round
  dsimp only
  rw [floor_five_halves, if_neg (by norm_num), if_neg (by norm_num), if_pos (by decide)]

theorem weighted_overlay_postcondition_witness :
    calculate_weighted_risk (9 / 20) (1 / 4) (3 / 10) 5 5 1 = 4 := by
  have h := (weighted_overlay_postcondition (9 / 20) (1 / 4) (3 / 10) 5 5 1
    (by norm_num) (by norm_num) (by norm_num) (by norm_num)
    (by norm_num) (by norm_num) (by norm_num)).1
    (by norm_num) (by norm_num) (by norm_num)
  rw [h, show (9 : ℚ) / 20 * ((5 : ℕ) : ℚ) + 1 / 4 * ((5 : ℕ) : ℚ) +
    3 / 10 * ((1 : ℕ) : ℚ) = 19 / 5 by push_cast; norm_num, np_round_nineteen_fifths]
  decide

/-- C2 counterexample: with the configured weights 0.45, 0.25, 0.30 and the
layers (2, 4, 2) the weighted sum is exactly 2.5, the combinator (numpy
rounding, half to even) produces 2, while the round-half-away-from-zero
rule named by the claim would produce 3. -/
theorem overlay_rounding_not_half_away :
    ((9 : ℚ) / 20 * 2 + 1 / 4 * 4 + 3 / 10 * 2) -
      ⌊(9 : ℚ) / 20 * 2 + 1 / 4 * 4 + 3 / 10 * 2⌋ = 1 / 2 ∧
    calculate_weighted_risk (9 / 20) (1 / 4) (3 / 10) 2 4 2 = 2 ∧
    round_half_away_from_zero ((9 : ℚ) / 20 * 2 + 1 / 4 * 4 + 3 / 10 * 2) = 3 := by
  have hq : (9 : ℚ) / 20 * 2 + 1 / 4 * 4 + 3 / 10 * 2 = 5 / 2 := by norm_num
  refine ⟨?_, ?_, ?_⟩
  · rw [hq, floor_five_halves]
    norm_num
  · unfold calculate_weighted_risk
    dsimp only
    rw [if_neg (by norm_num),
      show (9 : ℚ) / 20 * ((2 : ℕ) : ℚ) + 1 / 4 * ((4 : ℕ) : ℚ) +
        3 / 10 * ((2 : ℕ) : ℚ) = 5 / 2 by push_cast; norm_num,
      np_round_five_halves]
    decide
  · rw [hq]
    unfold round_half_away_from_zero
    rw [if_pos (by norm_num),
      show (5 : ℚ) / 2 + 1 / 2 = ((3 : ℤ) : ℚ) by push_cast; norm_num]
    exact Int.floor_intCast 3

/-- C2 amended: the rounding the combinator applies to the weighted sum is
numpy rounding, which resolves an exact .5 tie to the even neighbour (2.5
rounds to 2, 3.5 rounds to 4), before clamping: at every tie the pre-clamp
rounded value is the unique even integer at distance 1/2 from the raw sum. -/
theorem overlay_rounding_half_to_even (ws wa wv : ℚ) (s a v : ℕ)
    (hws : 0 ≤ ws) (hwa : 0 ≤ wa) (hwv : 0 ≤ wv) (hsum : ws + wa + wv = 1)
    (hs : s ≤ 5) (ha : a ≤ 5) (hv : v ≤ 5)
    (hs0 : 0 < s) (ha0 : 0 < a) (hv0 : 0 < v)
    (htie : (ws * s + wa * a + wv * v) - ⌊ws * s + wa * a + wv * v⌋ = 1 / 2) :
    calculate_weighted_risk ws wa wv s a v =
      (max 1 (min 5 (np_round (ws * s + wa * a + wv * v)))).toNat ∧
    2 ∣ np_round (ws * s + wa * a + wv * v) ∧
    |(np_round (ws * s + wa * a + wv * v) : ℚ) - (ws * s + wa * a + wv * v)| = 1 / 2 :=
  ⟨overlay_eq_clamp_round ws wa wv s a v hws hwa hwv hsum hs ha hv hs0 ha0 hv0,
   (np_round_tie _ htie).1, (np_round_tie _ htie).2⟩

theorem overlay_rounding_half_to_even_witness :
    calculate_weighted_risk (9 / 20) (1 / 4) (3 / 10) 2 4 2 = 2 ∧
    2 ∣ np_round ((5 : ℚ) / 2) := by
  have hsum : (9 : ℚ) / 20 * ((2 : ℕ) : ℚ) + 1 / 4 * ((4 : ℕ) : ℚ) +
      3 / 10 * ((2 : ℕ) : ℚ) = 5 / 2 := by push_cast; norm_num
  have h := overlay_rounding_half_to_even (9 / 20) (1 / 4) (3 / 10) 2 4 2
    (by norm_num) (by norm_num) (by norm_num) (by norm_num)
    (by norm_num) (by norm_num) (by norm_num)
    (by norm_num) (by norm_num) (by norm_num)
    (by rw [hsum, floor_five_halves]; norm_num)
  refine ⟨?_, ?_⟩
  · rw [h.1, hsum, np_round_five_halves]
    decide
  · have h2 := h.2.1
    rwa [hsum] at h2

/-! ## Terrain derivative engine: scripts/derive_terrain.py

The DEM and the derived products are 2-D float arrays whose cells may be
NaN; a cell is embedded as Option of a real, none standing for NaN.  All
array statements of the source are elementwise or stencil operations, so
they are embedded per cell. -/

/-- A 2-D grid of float cells that may be NaN (none).  The value function
is total; only indices below the bounds are meaningful. -/
structure Grid where
  rows : ℕ
  cols : ℕ
  val : ℕ → ℕ → Option ℝ

/-- Index folding of the scipy.ndimage.convolve default boundary mode
(reflect, half-sample symmetric): index -1 folds back to 0 and index n to
n - 1, which covers the footprint of a radius-1 kernel. -/
def reflectIdx (n : ℕ) (i : ℤ) : ℕ :=
  if i < 0 then (-i - 1).toNat
  else if (n : ℤ) ≤ i then (2 * (n : ℤ) - 1 - i).toNat
  else i.toNat

/-- One cell of the 3x3 window around (r, c), at row offset dr and column
offset dc, with reflected boundary indexing. -/
def window (g : Grid) (r c : ℕ) (dr dc : ℤ) : Option ℝ :=
  g.val (reflectIdx g.rows (r + dr)) (reflectIdx g.cols (c + dc))

/-- NaN-propagating addition of IEEE floats on the Option embedding. -/
def nadd : Option ℝ → Option ℝ → Option ℝ
  | none, _ => none
  | _, none => none
  | some a, some b => some (a + b)

/-- NaN-propagating multiplication by a finite kernel coefficient: in IEEE
arithmetic 0 * NaN is NaN, so even a zero coefficient propagates NaN. -/
def nmul (k : ℝ) : Option ℝ → Option ℝ
  | none => none
  | some a => some (k * a)

@[simp] lemma nadd_none_left (b : Option ℝ) : nadd none b = none := by
  cases b <;> rfl

@[simp] lemma nadd_none_right (a : Option ℝ) : nadd a none = none := by
  cases a <;> rfl

@[simp] lemma nadd_some (a b : ℝ) : nadd (some a) (some b) = some (a + b) := rfl

@[simp] lemma nmul_none (k : ℝ) : nmul k none = none := rfl

@[simp] lemma nmul_some (k a : ℝ) : nmul k (some a) = some (k * a) := rfl

/-- Entry (i, j) (row i, column j, each in 0..2) of the x-gradient kernel
of derive_terrain.py lines 65-67, Horn's method:
[[-1,0,1],[-2,0,2],[-1,0,1]] divided by 8 h. -/
noncomputable def kernel_x (h : ℝ) (i j : ℤ) : ℝ :=
  (if j = 0 then -1 else if j = 2 then 1 else 0) *
    (if i = 1 then 2 else 1) / (8 * h)

/-- Entry (i, j) of the y-gradient kernel of derive_terrain.py lines 69-71:
[[1,2,1],[0,0,0],[-1,-2,-1]] divided by 8 h. -/
noncomputable def kernel_y (h : ℝ) (i j : ℤ) : ℝ :=
  (if i = 0 then 1 else if i = 2 then -1 else 0) *
    (if j = 1 then 2 else 1) / (8 * h)

/-- One output cell of scipy.ndimage.convolve with a 3x3 kernel: true
convolution, so the kernel is flipped (the weight applied at offset
(dr, dc) is the kernel entry at (1 - dr, 1 - dc)), and a NaN anywhere in
the full 3x3 footprint, zero coefficients included, makes the output
NaN. -/
noncomputable def conv3 (k : ℤ → ℤ → ℝ) (g : Grid) (r c : ℕ) : Option ℝ :=
  nadd (nmul (k 2 2) (window g r c (-1) (-1)))
    (nadd (nmul (k 2 1) (window g r c (-1) 0))
      (nadd (nmul (k 2 0) (window g r c (-1) 1))
        (nadd (nmul (k 1 2) (window g r c 0 (-1)))
          (nadd (nmul (k 1 1) (window g r c 0 0))
            (nadd (nmul (k 1 0) (window g r c 0 1))
              (nadd (nmul (k 0 2) (window g r c 1 (-1)))
                (nadd (nmul (k 0 1) (window g r c 1 0))
                  (nmul (k 0 0) (window g r c 1 1)))))))))

/-- Embedding of numpy arctan2 as the argument of the complex number
x + y i, matching the principal range (-pi, pi] and atan2 of (0, 0)
equal to 0. -/
noncomputable def atan2 (y x : ℝ) : ℝ := Complex.arg ⟨x, y⟩

/-- One cell of the slope computation of derive_terrain.py lines 74-83:
Horn gradients, slope in degrees arctan of the gradient norm, clipped to
[0, 90]; NaN gradients give a NaN slope (np.clip keeps NaN). -/
noncomputable def slope_cell (h : ℝ) (g : Grid) (r c : ℕ) : Option ℝ :=
  match conv3 (kernel_x h) g r c, conv3 (kernel_y h) g r c with
  | some gx, some gy =>
      some (min 90 (max 0 (Real.arctan (Real.sqrt (gx ^ 2 + gy ^ 2)) * (180 / Real.pi))))
  | _, _ => none

/-- One cell of the raw compass bearing of derive_terrain.py lines 90-98:
degrees of atan2 of (gy, -gx), converted by 90 minus raw, plus 360 if the
result is negative. -/
noncomputable def bearing_cell (h : ℝ) (g : Grid) (r c : ℕ) : Option ℝ :=
  match conv3 (kernel_x h) g r c, conv3 (kernel_y h) g r c with
  | some gx, some gy =>
      some (if 90 - atan2 gy (-gx) * (180 / Real.pi) < 0
            then 90 - atan2 gy (-gx) * (180 / Real.pi) + 360
            else 90 - atan2 gy (-gx) * (180 / Real.pi))
  | _, _ => none

/-- One cell of the flat override of derive_terrain.py line 101:
np.where on slope below 1 replacing by -1, per cell; a NaN slope compares
false in IEEE arithmetic, so the override does not fire there and the
bearing value (itself NaN in that case) passes through. -/
noncomputable def aspect_cell (h : ℝ) (g : Grid) (r c : ℕ) : Option ℝ :=
  match slope_cell h g r c with
  | some s => if s < 1 then some (-1) else bearing_cell h g r c
  | none => bearing_cell h g r c

/-- Success test on an exception channel. -/
def exceptOk {ε α : Type} : Except ε α → Bool
  | Except.ok _ => true
  | Except.error _ => false

/-- The one Python exception the terrain engine can raise: np.nanmin
applied to a zero-size array raises ValueError (zero-size array to
reduction operation fmin which has no identity). -/
inductive PyError : Type where
  | valueError : PyError

/-- Embedding of calculate_slope_aspect (derive_terrain.py lines 38-117),
stripped of the raster I/O collaborator.  The body performs no deliberate
precondition check, but the diagnostic print at line 57 computes
np.nanmin(dem), which raises ValueError on a zero-size elevation grid
before any kernel is built or any gradient computed; that is the only
failure path of the body.  A non-positive cell size is never rejected:
the kernel division by 8 h only emits suppressed RuntimeWarnings (the
script installs a warnings filter) and the computation proceeds to
produce outputs. -/
noncomputable def calculate_slope_aspect (h : ℝ) (g : Grid) :
    Except PyError (Grid × Grid) :=
  if g.rows = 0 ∨ g.cols = 0 then Except.error PyError.valueError
  else
    Except.ok
      (⟨g.rows, g.cols, fun r c => slope_cell h g r c⟩,
       ⟨g.rows, g.cols, fun r c => aspect_cell h g r c⟩)

/-- A 1x1 grid holding the single elevation 100, the constant-elevation
fixture of the spec scenarios. -/
noncomputable def flatGrid : Grid := ⟨1, 1, fun _ _ => some 100⟩

/-- A 1x1 grid whose single cell is NoData. -/
def nanGrid : Grid := ⟨1, 1, fun _ _ => none⟩

/-- A grid with no rows and no columns. -/
def emptyGrid : Grid := ⟨0, 0, fun _ _ => none⟩

/-! ### Helper lemmas on the terrain stencil -/

lemma window_center (g : Grid) (r c : ℕ) (hr : r < g.rows) (hc : c < g.cols) :
    window g r c 0 0 = g.val r c := by
  have e1 : reflectIdx g.rows ((r : ℤ) + 0) = r := by
    unfold reflectIdx
    rw [if_neg (by omega), if_neg (by omega)]
    omega
  have e2 : reflectIdx g.cols ((c : ℤ) + 0) = c := by
    unfold reflectIdx
    rw [if_neg (by omega), if_neg (by omega)]
    omega
  unfold window
  rw [e1, e2]

lemma conv3_none_center (k : ℤ → ℤ → ℝ) (g : Grid) (r c : ℕ)
    (hw : window g r c 0 0 = none) : conv3 k g r c = none := by
  unfold conv3
  rw [hw]
  simp

lemma slope_cell_none_x (h : ℝ) (g : Grid) (r c : ℕ)
    (hx : conv3 (kernel_x h) g r c = none) : slope_cell h g r c = none := by
  unfold slope_cell
  rw [hx]

lemma bearing_cell_none_x (h : ℝ) (g : Grid) (r c : ℕ)
    (hx : conv3 (kernel_x h) g r c = none) : bearing_cell h g r c = none := by
  unfold bearing_cell
  rw [hx]

lemma aspect_cell_some_slope (h : ℝ) (g : Grid) (r c : ℕ) (s : ℝ)
    (hs : slope_cell h g r c = some s) :
    aspect_cell h g r c = if s < 1 then some (-1) else bearing_cell h g r c := by
  unfold aspect_cell
  rw [hs]

lemma aspect_cell_none_slope (h : ℝ) (g : Grid) (r c : ℕ)
    (hs : slope_cell h g r c = none) :
    aspect_cell h g r c = bearing_cell h g r c := by
  unfold aspect_cell
  rw [hs]

lemma nanGrid_slope_none : slope_cell 10 nanGrid 0 0 = none :=
  slope_cell_none_x 10 nanGrid 0 0 (conv3_none_center _ nanGrid 0 0 rfl)

lemma bearing_cell_mem (h : ℝ) (g : Grid) (r c : ℕ) (y : ℝ)
    (hy : bearing_cell h g r c = some y) : 0 ≤ y ∧ y < 360 := by
  unfold bearing_cell at hy
  rcases hgx : conv3 (kernel_x h) g r c with _ | gx <;>
    rcases hgy : conv3 (kernel_y h) g r c with _ | gy <;>
      rw [hgx, hgy] at hy
  · exact Option.noConfusion hy
  · exact Option.noConfusion hy
  · exact Option.noConfusion hy
  · have hval := Option.some.inj hy
    subst hval
    set t := atan2 gy (-gx) * (180 / Real.pi) with ht
    have hπ : 0 < Real.pi := Real.pi_pos
    have h1 : atan2 gy (-gx) ≤ Real.pi := Complex.arg_le_pi _
    have h2 : -Real.pi < atan2 gy (-gx) := Complex.neg_pi_lt_arg _
    have hub : t ≤ 180 := by
      rw [ht]
      calc atan2 gy (-gx) * (180 / Real.pi) ≤ Real.pi * (180 / Real.pi) :=
            mul_le_mul_of_nonneg_right h1 (by positivity)
        _ = 180 := by field_simp
    have hlb : -180 < t := by
      have hstep : -Real.pi * (180 / Real.pi) < atan2 gy (-gx) * (180 / Real.pi) :=
        mul_lt_mul_of_pos_right h2 (by positivity)
      have he : -Real.pi * (180 / Real.pi) = -180 := by
        field_simp
        ring
      rw [ht]
      linarith
    split_ifs with hneg
    · constructor <;> linarith
    · constructor <;> linarith

lemma flatGrid_conv_x : conv3 (kernel_x 10) flatGrid 0 0 = some 0 := by
  unfold conv3 window flatGrid kernel_x
  norm_num

lemma flatGrid_conv_y : conv3 (kernel_y 10) flatGrid 0 0 = some 0 := by
  unfold conv3 window flatGrid kernel_y
  norm_num

lemma flatGrid_slope : slope_cell 10 flatGrid 0 0 = some 0 := by
  unfold slope_cell
  rw [flatGrid_conv_x, flatGrid_conv_y]
  show some (min 90 (max 0 (Real.arctan (Real.sqrt ((0 : ℝ) ^ 2 + 0 ^ 2)) *
    (180 / Real.pi)))) = some 0
  rw [show (0 : ℝ) ^ 2 + 0 ^ 2 = 0 by norm_num, Real.sqrt_zero, Real.arctan_zero,
    zero_mul, max_self, min_eq_right (by norm_num : (0 : ℝ) ≤ 90)]

lemma flatGrid_aspect : aspect_cell 10 flatGrid 0 0 = some (-1) := by
  rw [aspect_cell_some_slope 10 flatGrid 0 0 0 flatGrid_slope, if_pos (by norm_num)]

/-! ### Claims on the terrain derivative engine -/

/-- C5 counterexample: a non-positive cell size (0) on a nonempty
elevation grid is not rejected: the engine completes and returns its
outputs, so the claimed fatal precondition violation does not happen for
the non-positive-cell-size half of the claim. -/
theorem terrain_cellsize_not_checked :
    exceptOk (calculate_slope_aspect 0 flatGrid) = true := rfl

/-- C5 amended: the engine fails fatally exactly when the elevation grid
is empty (a ValueError raised by np.nanmin inside a diagnostic print,
before any slope or aspect computation, rather than a deliberate check),
producing no output in that case; a non-positive cell size, however, is
not validated and does not stop the engine from returning outputs. -/
theorem terrain_empty_fails_but_cellsize_unchecked (h : ℝ) (g : Grid) :
    (g.rows = 0 ∨ g.cols = 0 → exceptOk (calculate_slope_aspect h g) = false) ∧
    (g.rows ≠ 0 → g.cols ≠ 0 → exceptOk (calculate_slope_aspect h g) = true) := by
  constructor
  · intro h0
    unfold calculate_slope_aspect
    rw [if_pos h0]
    rfl
  · intro h1 h2
    unfold calculate_slope_aspect
    rw [if_neg (by rintro (h0 | h0) <;> [exact h1 h0; exact h2 h0])]
    rfl

theorem terrain_empty_fails_but_cellsize_unchecked_witness :
    exceptOk (calculate_slope_aspect 10 emptyGrid) = false ∧
    exceptOk (calculate_slope_aspect 0 flatGrid) = true :=
  ⟨(terrain_empty_fails_but_cellsize_unchecked 10 emptyGrid).1 (Or.inl rfl),
   (terrain_empty_fails_but_cellsize_unchecked 0 flatGrid).2 (by decide) (by decide)⟩

/-- C6 counterexample: on a grid whose single cell is NoData the slope
output cell is NoData, hence not a value in [0, 90]: the claimed range
invariant fails on grids containing NoData. -/
theorem slope_range_fails_on_nodata :
    ¬ ∃ x : ℝ, slope_cell 10 nanGrid 0 0 = some x ∧ 0 ≤ x ∧ x ≤ 90 := by
  rintro ⟨x, hx, -⟩
  rw [nanGrid_slope_none] at hx
  exact Option.noConfusion hx

/-- C6 amended: every slope output cell that is not NoData lies in [0, 90],
and every aspect output cell that is not NoData lies in [0, 360) or equals
the flat sentinel -1. -/
theorem terrain_output_ranges (h : ℝ) (g : Grid) (r c : ℕ) (x : ℝ) :
    (slope_cell h g r c = some x → 0 ≤ x ∧ x ≤ 90) ∧
    (aspect_cell h g r c = some x → (0 ≤ x ∧ x < 360) ∨ x = -1) := by
  constructor
  · intro hx
    unfold slope_cell at hx
    rcases hgx : conv3 (kernel_x h) g r c with _ | gx <;>
      rcases hgy : conv3 (kernel_y h) g r c with _ | gy <;>
        rw [hgx, hgy] at hx
    · exact Option.noConfusion hx
    · exact Option.noConfusion hx
    · exact Option.noConfusion hx
    · have hval := Option.some.inj hx
      subst hval
      exact ⟨le_min (by norm_num) (le_max_left 0 _), min_le_left _ _⟩
  · intro hx
    rcases hs : slope_cell h g r c with _ | s
    · rw [aspect_cell_none_slope h g r c hs] at hx
      exact Or.inl (bearing_cell_mem h g r c x hx)
    · rw [aspect_cell_some_slope h g r c s hs] at hx
      split_ifs at hx with hlt
      · exact Or.inr (Option.some.inj hx).symm
      · exact Or.inl (bearing_cell_mem h g r c x hx)

theorem terrain_output_ranges_witness :
    ((0 : ℝ) ≤ 0 ∧ (0 : ℝ) ≤ 90) ∧
    (((0 : ℝ) ≤ -1 ∧ (-1 : ℝ) < 360) ∨ (-1 : ℝ) = -1) :=
  ⟨(terrain_output_ranges 10 flatGrid 0 0 0).1 flatGrid_slope,
   (terrain_output_ranges 10 flatGrid 0 0 (-1)).2 flatGrid_aspect⟩

/-- C7: flat-cell override: at every cell whose computed slope is below 1
degree the aspect output is the sentinel -1, whatever the gradients and
the computed bearing. -/
theorem flat_cell_override (h : ℝ) (g : Grid) (r c : ℕ) (s : ℝ)
    (hs : slope_cell h g r c = some s) (hlt : s < 1) :
    aspect_cell h g r c = some (-1) := by
  rw [aspect_cell_some_slope h g r c s hs, if_pos hlt]

theorem flat_cell_override_witness : aspect_cell 10 flatGrid 0 0 = some (-1) :=
  flat_cell_override 10 flatGrid 0 0 0 flatGrid_slope (by norm_num)

/-- C8: NoData propagation: an in-bounds NoData cell of the input elevation
grid yields NoData in both the slope and the aspect output at the same
position. -/
theorem nodata_propagation (h : ℝ) (g : Grid) (r c : ℕ)
    (hr : r < g.rows) (hc : c < g.cols) (hval : g.val r c = none) :
    slope_cell h g r c = none ∧ aspect_cell h g r c = none := by
  have hw : window g r c 0 0 = none := by
    rw [window_center g r c hr hc]
    exact hval
  have hcx : conv3 (kernel_x h) g r c = none := conv3_none_center _ g r c hw
  have hs : slope_cell h g r c = none := slope_cell_none_x h g r c hcx
  have hb : bearing_cell h g r c = none := bearing_cell_none_x h g r c hcx
  exact ⟨hs, by rw [aspect_cell_none_slope h g r c hs]; exact hb⟩

theorem nodata_propagation_witness :
    slope_cell 10 nanGrid 0 0 = none ∧ aspect_cell 10 nanGrid 0 0 = none :=
  nodata_propagation 10 nanGrid 0 0 (by decide) (by decide) rfl

/-- C10: NoData takes precedence over the flat-cell override: a NaN slope
compares false against 1, so the override does not fire and the aspect
output stays NoData rather than becoming the flat sentinel. -/
theorem nodata_overrides_flat (h : ℝ) (g : Grid) (r c : ℕ)
    (hs : slope_cell h g r c = none) : aspect_cell h g r c = none := by
  have hb : bearing_cell h g r c = none := by
    unfold bearing_cell
    cases hx : conv3 (kernel_x h) g r c with
    | none => cases hy : conv3 (kernel_y h) g r c <;> rfl
    | some gx =>
      cases hy : conv3 (kernel_y h) g r c with
      | none => rfl
      | some gy =>
        exfalso
        unfold slope_cell at hs
        rw [hx, hy] at hs
        exact Option.noConfusion hs
  rw [aspect_cell_none_slope h g r c hs]
  exact hb

theorem nodata_overrides_flat_witness : aspect_cell 10 nanGrid 0 0 = none :=
  nodata_overrides_flat 10 nanGrid 0 0 nanGrid_slope_none

end GlendaleFire
